import Mathlib

/-!
Shallow embedding of the testme-cau frontend (and the bundled Android
coursework apps) for checking the natural-language specification.

The JavaScript/TypeScript pages are embedded as pure Lean functions over
explicit state: React state updates become state passing, browser storage
becomes an association list, and the vendor functions the pages call
(JSON.stringify and JSON.parse on flat string-valued records, localStorage,
Firebase auth state, Android intent extras) are modelled by executable Lean
definitions following the vendors' documented semantics.
-/

namespace Testme

/-! ## JSON model (JSON.stringify / JSON.parse on flat string records)

The exam page persists its answers record with
JSON.stringify and restores it with JSON.parse.  Both are vendor
functions; they are modelled here for exactly the shape the page uses:
a flat object whose values are strings. -/

/-- One lowercase hexadecimal digit character, as produced by the
JavaScript JSON.stringify escape for control characters. -/
def hexDigit : Nat → Char
  | 0 => '0' | 1 => '1' | 2 => '2' | 3 => '3' | 4 => '4'
  | 5 => '5' | 6 => '6' | 7 => '7' | 8 => '8' | 9 => '9'
  | 10 => 'a' | 11 => 'b' | 12 => 'c' | 13 => 'd' | 14 => 'e'
  | 15 => 'f' | _ => '0'

/-- Numeric value of a hexadecimal digit character (JSON escapes accept
both letter cases). -/
def hexVal (c : Char) : Option Nat :=
  let v := c.toNat
  if 48 ≤ v ∧ v ≤ 57 then some (v - 48)
  else if 97 ≤ v ∧ v ≤ 102 then some (v - 87)
  else if 65 ≤ v ∧ v ≤ 70 then some (v - 55)
  else none

/-- Model of the per-character escaping JSON.stringify applies inside a
string: quote and backslash get a backslash escape, the control characters
with short escapes use them, the remaining control characters are written
as a lowercase \u00XX escape, and every other character is copied as is. -/
def jsonEscapeChar (c : Char) : List Char :=
  if c = '"' then ['\\', '"']
  else if c = '\\' then ['\\', '\\']
  else if c = '\x08' then ['\\', 'b']
  else if c = '\x09' then ['\\', 't']
  else if c = '\x0a' then ['\\', 'n']
  else if c = '\x0c' then ['\\', 'f']
  else if c = '\x0d' then ['\\', 'r']
  else if c.toNat < 32 then
    ['\\', 'u', '0', '0', hexDigit (c.toNat / 16), hexDigit (c.toNat % 16)]
  else [c]

/-- A JSON string literal: the escaped characters between double quotes. -/
def quoteChars (s : String) : List Char :=
  '"' :: (s.data.flatMap jsonEscapeChar ++ ['"'])

/-- One member of a JSON object of strings: quoted key, colon, quoted value. -/
def memberChars (kv : String × String) : List Char :=
  quoteChars kv.1 ++ ':' :: quoteChars kv.2

/-- The members of a JSON object of strings, comma separated, followed by
the closing brace. -/
def membersChars : List (String × String) → List Char
  | [] => ['\x7d']
  | [kv] => memberChars kv ++ ['\x7d']
  | kv :: rest => memberChars kv ++ ',' :: membersChars rest

/-- Model of JSON.stringify on a flat record whose values are strings, as
the exam page applies it to its answers record: an opening brace, the
members in record order, a closing brace. -/
def jsonStringifyRecord (m : List (String × String)) : String :=
  String.mk ('\x7b' :: membersChars m)

/-- Decode a four-digit \uXXXX escape body. -/
def takeHex4 : List Char → Option (Char × List Char)
  | h1 :: h2 :: h3 :: h4 :: r =>
    match hexVal h1, hexVal h2, hexVal h3, hexVal h4 with
    | some a, some b, some cv, some d =>
      some (Char.ofNat (((a * 16 + b) * 16 + cv) * 16 + d), r)
    | _, _, _, _ => none
  | _ => none

/-- Decode one backslash escape of a JSON string (the input starts right
after the backslash). -/
def decodeEscape : List Char → Option (Char × List Char)
  | [] => none
  | e :: r2 =>
    if e = '"' then some ('"', r2)
    else if e = '\\' then some ('\\', r2)
    else if e = '/' then some ('/', r2)
    else if e = 'b' then some ('\x08', r2)
    else if e = 't' then some ('\x09', r2)
    else if e = 'n' then some ('\x0a', r2)
    else if e = 'f' then some ('\x0c', r2)
    else if e = 'r' then some ('\x0d', r2)
    else if e = 'u' then takeHex4 r2
    else none

/-- One step of the JSON string-literal scanner: either the closing quote
(token none) or one decoded character (token some c), with the remaining
input. -/
def nextStringToken : List Char → Option (Option Char × List Char)
  | [] => none
  | c :: rest =>
    if c = '"' then some (none, rest)
    else if c = '\\' then (decodeEscape rest).map (fun p => (some p.1, p.2))
    else some (some c, rest)

theorem takeHex4_length {l r : List Char} {c : Char} (h : takeHex4 l = some (c, r)) :
    r.length < l.length := by
  match l with
  | [] => simp [takeHex4] at h
  | [a] => simp [takeHex4] at h
  | [a, b] => simp [takeHex4] at h
  | [a, b, d] => simp [takeHex4] at h
  | a :: b :: d :: e :: t =>
    simp only [takeHex4] at h
    split at h
    · injection h with h'
      cases h'
      simp
      omega
    · cases h

theorem decodeEscape_length {l r : List Char} {c : Char} (h : decodeEscape l = some (c, r)) :
    r.length < l.length := by
  match l with
  | [] => simp [decodeEscape] at h
  | e :: r2 =>
    simp only [decodeEscape] at h
    split_ifs at h <;>
      first
      | (injection h with h'; cases h'; simp)
      | (have hh := takeHex4_length h; simp; omega)

theorem nextStringToken_length {l r : List Char} {t : Option Char}
    (h : nextStringToken l = some (t, r)) : r.length < l.length := by
  match l with
  | [] => simp [nextStringToken] at h
  | c :: rest =>
    simp only [nextStringToken] at h
    split_ifs at h
    · injection h with h'; cases h'; simp
    · rw [Option.map_eq_some'] at h
      obtain ⟨⟨c1, r1⟩, hp, he⟩ := h
      cases he
      have hh := decodeEscape_length hp
      simp
      omega
    · injection h with h'; cases h'; simp

/-- Model of the JSON string-literal body parser (after the opening
quote): the decoded characters and the input remaining after the closing
quote, or none on malformed input. -/
def parseStringBody (l : List Char) : Option (List Char × List Char) :=
  match h : nextStringToken l with
  | none => none
  | some (none, rest) => some ([], rest)
  | some (some c, rest) => (parseStringBody rest).map (fun p => (c :: p.1, p.2))
termination_by l.length
decreasing_by exact nextStringToken_length h

/-- Consume one expected character. -/
def expectChar (c : Char) : List Char → Option (List Char)
  | x :: r => if x = c then some r else none
  | [] => none

/-- Parse one member of a JSON object of strings: quoted key, colon,
quoted value. -/
def parseMember1 (l : List Char) : Option ((String × String) × List Char) :=
  (expectChar '"' l).bind fun r0 =>
  (parseStringBody r0).bind fun kp =>
  (expectChar ':' kp.2).bind fun r1 =>
  (expectChar '"' r1).bind fun r2 =>
  (parseStringBody r2).map fun vp =>
  ((String.mk kp.1, String.mk vp.1), vp.2)

/-- Parse the members of a JSON object of strings up to the closing
brace; the Nat argument is recursion fuel. -/
def parseMembers : Nat → List Char → Option (List (String × String) × List Char)
  | 0, _ => none
  | fuel + 1, l =>
    (parseMember1 l).bind fun q =>
      match q.2 with
      | ',' :: r4 => (parseMembers fuel r4).map (fun p => (q.1 :: p.1, p.2))
      | '\x7d' :: r4 => some ([q.1], r4)
      | _ => none

/-- Model of JSON.parse restricted to the shape the exam page stores: a
flat object whose values are strings.  Returns none on any input that is
not exactly such an object. -/
def jsonParseRecord (s : String) : Option (List (String × String)) :=
  match s.data with
  | '\x7b' :: rest =>
    if rest = ['\x7d'] then some []
    else
      match parseMembers s.length rest with
      | some (m, []) => some m
      | _ => none
  | _ => none

/-! ## Browser storage model

localStorage and sessionStorage, modelled as association lists from keys
to stored strings. -/

/-- A browser storage area (localStorage or sessionStorage). -/
abbrev Store : Type := List (String × String)

/-- localStorage.getItem. -/
def getItem (st : Store) (k : String) : Option String :=
  (List.find? (fun e => e.1 == k) st).map (fun e => e.2)

/-- localStorage.removeItem. -/
def removeItem (st : Store) (k : String) : Store :=
  List.filter (fun e => !(e.1 == k)) st

/-- localStorage.setItem: stores the value under the key, replacing any
previous value. -/
def setItem (st : Store) (k v : String) : Store :=
  (k, v) :: removeItem st k

/-! ## Data model from web-frontend/src/types/api.ts -/

/-- Question.type of types/api.ts: the union 'multiple_choice' | 'essay'. -/
inductive QuestionType
  | multiple_choice
  | essay
deriving DecidableEq

/-- Exam.difficulty of types/api.ts: the union 'easy' | 'medium' | 'hard'. -/
inductive Difficulty
  | easy
  | medium
  | hard
deriving DecidableEq

/-- Question of types/api.ts. -/
structure Question where
  id : Nat
  question : String
  type : QuestionType
  options : Option (List String)
  points : Nat
deriving DecidableEq

/-- Exam of types/api.ts. -/
structure Exam where
  exam_id : String
  subject_id : String
  pdf_id : String
  user_id : String
  questions : List Question
  total_points : Nat
  estimated_time : Nat
  num_questions : Nat
  difficulty : Difficulty
  created_at : String
  status : String
  ai_provider : Option String
deriving DecidableEq

/-! ## Exam-taking page
(app/dashboard/subjects/[subjectId]/exams/[examId]/page.tsx) -/

/-- A toast notification raised through useToast. -/
structure Toast where
  title : String
  description : String
  variant : String
deriving DecidableEq

/-- A backend API request issued by the exam page.  The submit handler of
the current code issues none: its comment records that a future version
would call submitExam. -/
inductive ApiCall
  | submitExam (examId : String) (answers : List (String × String))
deriving DecidableEq

/-- The React state of ExamPage.  The answers record is a JavaScript
object keyed by the stringified question id. -/
structure ExamPageState where
  exam : Option Exam
  loading : Bool
  answers : List (String × String)
  submitting : Bool
  submitted : Bool
deriving DecidableEq

/-- The localStorage key used for the draft of one exam:
exam_<examId>_answers. -/
def answersKey (examId : String) : String :=
  "exam_" ++ examId ++ "_answers"

/-- JavaScript object read answers[k]. -/
def recordGet (m : List (String × String)) (k : String) : Option String :=
  (List.find? (fun e => e.1 == k) m).map (fun e => e.2)

/-- JavaScript object write: the spread in handleAnswerChange replaces the
value of an existing key in place and appends a new key. -/
def recordSet (m : List (String × String)) (k v : String) : List (String × String) :=
  if (List.find? (fun e => e.1 == k) m).isSome then
    m.map (fun e => if e.1 == k then (k, v) else e)
  else m ++ [(k, v)]

/-- JavaScript truthiness of answers[q.id] as the submit handler tests it:
a question counts as answered when the record holds a non-empty string
under the stringified question id. -/
def isAnswered (m : List (String × String)) (id : Nat) : Bool :=
  match recordGet m (Nat.repr id) with
  | some a => !(a == "")
  | none => false

/-- handleAnswerChange: record the answer for the question id. -/
def handleAnswerChange (st : ExamPageState) (questionId : Nat) (answer : String) :
    ExamPageState :=
  { st with answers := recordSet st.answers (Nat.repr questionId) answer }

/-- Result of one run of the submit handler: the new page state, the new
localStorage, the toasts raised, and the API calls issued. -/
structure SubmitResult where
  state : ExamPageState
  store : Store
  toasts : List Toast
  calls : List ApiCall

/-- handleSubmit of the exam page.  With no exam loaded it does nothing.
With unanswered questions it only raises the destructive toast.  With all
questions answered it marks the page submitted, removes the stored draft,
and raises the completion toast; the code issues no API call (its comment
defers submitExam to a future backend implementation). -/
def handleSubmit (examId : String) (st : ExamPageState) (store : Store) : SubmitResult :=
  match st.exam with
  | none => ⟨st, store, [], []⟩
  | some exam =>
    let unanswered := exam.questions.filter (fun q => !(isAnswered st.answers q.id))
    if unanswered.length > 0 then
      ⟨st, store,
        [⟨"미답변 문제 있음",
          Nat.repr unanswered.length ++ "개의 문제가 아직 답변되지 않았습니다.",
          "destructive"⟩], []⟩
    else
      ⟨{ st with submitted := true }, removeItem store (answersKey examId),
        [⟨"제출 완료", "답안이 성공적으로 제출되었습니다.", "default"⟩], []⟩

/-- The auto-save effect: whenever an exam is loaded, the current answers
record is serialized and stored under the draft key. -/
def autoSaveEffect (examId : String) (st : ExamPageState) (store : Store) : Store :=
  if st.exam.isSome then
    setItem store (answersKey examId) (jsonStringifyRecord st.answers)
  else store

/-- loadSavedAnswers: read the draft key and parse it; none means the
state is left unchanged (no stored draft, or parse failure). -/
def loadSavedAnswers (examId : String) (store : Store) : Option (List (String × String)) :=
  match getItem store (answersKey examId) with
  | none => none
  | some saved => jsonParseRecord saved

/-- Number of answered questions as the page computes it:
Object.keys(answers).length. -/
def answeredCount (st : ExamPageState) : Nat :=
  st.answers.length

/-- The disabled condition of the submit button:
submitting || answeredCount === 0. -/
def submitDisabled (st : ExamPageState) : Bool :=
  st.submitting || (answeredCount st == 0)

/-! ## API client response interceptor (lib/api/client.ts) -/

/-- The error payload of a response the server answered with an error
status: the HTTP status and the optional message and error fields of the
JSON body. -/
structure ErrorResponse where
  status : Nat
  message : Option String
  error : Option String
deriving DecidableEq

/-- The three failure shapes the axios response interceptor
distinguishes: a server response with an error status, a request that got
no response, and anything else. -/
inductive AxiosFailure
  | response (r : ErrorResponse)
  | request
  | other (msg : String)
deriving DecidableEq

/-- What the interceptor delivers: the message of the rejected Error and
whether it navigated the browser to /login. -/
structure InterceptOutcome where
  rejectedMessage : String
  redirectedToLogin : Bool
deriving DecidableEq

/-- JavaScript a || b for an optional string: an absent or empty string is
falsy. -/
def jsOr (a : Option String) (b : String) : String :=
  match a with
  | some s => if s = "" then b else s
  | none => b

/-- data.message || data.error || 'An error occurred'. -/
def responseErrorMessage (r : ErrorResponse) : String :=
  jsOr r.message (jsOr r.error ("An error occurred"))

/-- The response interceptor of apiClient: on a server error response it
rejects with the first truthy of message, error, and the fallback text,
and on a 401 outside development mode it also redirects the browser to
/login; with no response it rejects with a fixed text; otherwise it
forwards the original error. -/
def handleResponseError (isDev : Bool) (e : AxiosFailure) : InterceptOutcome :=
  match e with
  | .response r => ⟨responseErrorMessage r, r.status == 401 && !isDev⟩
  | .request => ⟨"No response from server", false⟩
  | .other msg => ⟨msg, false⟩

/-! ## Authentication (hooks/useAuth.ts, lib/auth.ts, ProtectedRoute) -/

/-- A Firebase-verified user as the frontend consumes it; idToken is the
Firebase-issued ID token getIdToken would return (none when the token
fetch fails). -/
structure FirebaseUser where
  uid : String
  email : String
  displayName : String
  emailVerified : Bool
  idToken : Option String
deriving DecidableEq

/-- The snapshot useAuth settles to once its effect has run. -/
structure AuthSnapshot where
  userUid : Option String
  idToken : Option String
  loading : Bool
deriving DecidableEq

/-- The uid of the mock user useAuth fabricates in development mode. -/
def mockUserUid : String := "dev-user-123"

/-- The fixed token useAuth hands out in development mode; it is not
issued by Firebase. -/
def devToken : String := "dev-token-123"

/-- useAuth after its effect: in development mode the sessionStorage flag
dev-logged-in decides between the mock user and no user, and Firebase is
never consulted; in production mode the Firebase auth state decides. -/
def useAuthState (isDev : Bool) (devLoggedInFlag : Option String)
    (firebaseUser : Option FirebaseUser) : AuthSnapshot :=
  if isDev then
    if devLoggedInFlag = some ("true") then ⟨some mockUserUid, some devToken, false⟩
    else ⟨none, none, false⟩
  else
    match firebaseUser with
    | some u => ⟨some u.uid, u.idToken, false⟩
    | none => ⟨none, none, false⟩

/-- What ProtectedRoute renders. -/
inductive RouteOutput
  | loadingPage
  | redirectLogin
  | children
deriving DecidableEq

/-- The development-mode variant of ProtectedRoute: in development mode it
renders its children unconditionally; in production mode it shows the
loading page while loading, redirects to /login without a user, and
renders the children with one. -/
def protectedRoute (isDev : Bool) (snap : AuthSnapshot) : RouteOutput :=
  if isDev then .children
  else if snap.loading then .loadingPage
  else
    match snap.userUid with
    | none => .redirectLogin
    | some _ => .children

/-- devLogin of lib/auth.ts: outside development mode it only returns an
error; in development mode it sets the sessionStorage flag that useAuth
reads. -/
def devLogin (isDev : Bool) (session : Store) : Store × Option String :=
  if isDev then (setItem session ("dev-logged-in") ("true"), none)
  else (session, some ("Dev login only available in development mode"))

/-- The request interceptor of apiClient: the Authorization header is
attached exactly when Firebase has a current user whose token fetch
succeeds. -/
def requestAuthHeader (currentUser : Option FirebaseUser) : Option String :=
  currentUser.bind (fun u => u.idToken.map (fun t => "Bearer " ++ t))

/-! ## Exam generation page (GenerateExamPage) -/

/-- The form state of GenerateExamPage (an ExamGenerationRequest). -/
structure ExamGenerationForm where
  pdf_id : String
  num_questions : Nat
  difficulty : String
  ai_provider : String
deriving DecidableEq

/-- The values offered by the difficulty Select. -/
def difficultyItems : List String := ["easy", "medium", "hard"]

/-- The values offered by the AI provider Select: exactly gpt and
gemini. -/
def aiProviderItems : List String := ["gpt", "gemini"]

/-- The initial form state of GenerateExamPage: 10 questions, medium
difficulty, provider gpt. -/
def initialForm (pdfId : String) : ExamGenerationForm :=
  ⟨pdfId, 10, "medium", "gpt"⟩

/-- The form states reachable through the page controls: the range input
yields 1..50 for num_questions, and each Select only ever fires
onValueChange with one of its own item values. -/
inductive ReachableForm (pdfId : String) : ExamGenerationForm → Prop
  | init : ReachableForm pdfId (initialForm pdfId)
  | setNum {f : ExamGenerationForm} (n : Nat) :
      ReachableForm pdfId f → 1 ≤ n → n ≤ 50 →
      ReachableForm pdfId { f with num_questions := n }
  | selectDifficulty {f : ExamGenerationForm} (v : String) :
      ReachableForm pdfId f → v ∈ difficultyItems →
      ReachableForm pdfId { f with difficulty := v }
  | selectProvider {f : ExamGenerationForm} (v : String) :
      ReachableForm pdfId f → v ∈ aiProviderItems →
      ReachableForm pdfId { f with ai_provider := v }

/-! ## PDF upload (SubjectDetailPage.handleFileUpload) -/

/-- What handleFileUpload sees of the selected file. -/
structure FileInfo where
  ftype : String
  size : Nat
deriving DecidableEq

/-- The decision handleFileUpload takes. -/
inductive UploadDecision
  | noFile
  | showError (title description : String)
  | upload
deriving DecidableEq

/-- handleFileUpload: nothing without a file; a destructive toast when
the MIME type is not application/pdf or the size exceeds 16MB; otherwise
the uploadPDF call. -/
def handleFileUpload (file : Option FileInfo) : UploadDecision :=
  match file with
  | none => .noFile
  | some f =>
    if ¬(f.ftype = "application/pdf") then
      .showError ("파일 형식 오류") ("PDF 파일만 업로드 가능합니다.")
    else if f.size > 16 * 1024 * 1024 then
      .showError ("파일 크기 초과") ("파일 크기는 16MB를 초과할 수 없습니다.")
    else .upload

end Testme

namespace LabW7

/-! ## Lab_w7 battery app (MainActivity.kt, SecondActivity.kt) -/

/-- The integer extras of an Android intent. -/
abbrev IntentExtras : Type := List (String × Int)

/-- Intent.putExtra for an Int value. -/
def putExtra (ex : IntentExtras) (k : String) (v : Int) : IntentExtras :=
  (k, v) :: ex

/-- Intent.getIntExtra: the stored value, or the default when the key was
never put. -/
def getIntExtra (ex : IntentExtras) (k : String) (defaultValue : Int) : Int :=
  ((List.find? (fun e => e.1 == k) ex).map (fun e => e.2)).getD defaultValue

/-- The text BatteryDisplayScreen renders from the received level. -/
def batteryDisplayText (batteryLevel : Int) : String :=
  if batteryLevel ≠ -1 then "Battery: " ++ toString batteryLevel ++ "%"
  else "No battery data received"

/-- The extras of the intent MainActivity sends: the BATTERY_LEVEL extra
holds the BatteryManager capacity value. -/
def sendBatteryIntent (batteryCapacity : Int) : IntentExtras :=
  putExtra [] ("BATTERY_LEVEL") batteryCapacity

/-- SecondActivity: read the BATTERY_LEVEL extra with default -1 and
render it. -/
def secondActivityText (intent : IntentExtras) : String :=
  batteryDisplayText (getIntExtra intent ("BATTERY_LEVEL") (-1))

end LabW7

namespace MySecondApp

/-! ## MySecondApp student registration (MainActivity.kt) -/

/-- The Student data class; the GPA type and its parsing and printing are
abstract parameters standing for Kotlin Double, toDoubleOrNull and
Double.toString. -/
structure Student (G : Type) where
  name : String
  id : String
  gpa : G

/-- Kotlin String.isBlank: empty or all whitespace. -/
def kotlinIsBlank (s : String) : Bool :=
  s.data.all (fun c => c.isWhitespace)

/-- Student.toString. -/
def showStudent {G : Type} (gpaShow : G → String) (s : Student G) : String :=
  "Name: " ++ s.name ++ ", ID: " ++ s.id ++ ", GPA: " ++ gpaShow s.gpa

/-- toNumberedText: "No students." when empty, otherwise the students
numbered from 1, one per joined line. -/
def toNumberedText {G : Type} (gpaShow : G → String) (l : List (Student G)) : String :=
  if l.isEmpty then "No students."
  else
    String.intercalate ("\n")
      (l.mapIdx (fun idx s => Nat.repr (idx + 1) ++ ". " ++ showStudent gpaShow s))

/-- The numbering spec used to check toNumberedText: the entries labelled
consecutively starting from k, in list order. -/
def numberedFrom {G : Type} (gpaShow : G → String) : Nat → List (Student G) → List String
  | _, [] => []
  | k, s :: rest =>
    (Nat.repr k ++ ". " ++ showStudent gpaShow s) :: numberedFrom gpaShow (k + 1) rest

/-- The Compose state of the Greeting screen. -/
structure RegState (G : Type) where
  inputName : String
  inputID : String
  inputGPA : String
  outputText : String
  students : List (Student G)

/-- The Input button handler: with non-blank name and ID and a parsable
GPA it appends the student, reports it, and clears the three fields;
otherwise it only sets the error text. -/
def clickInput {G : Type} (gpaParse : String → Option G) (gpaShow : G → String)
    (st : RegState G) : RegState G :=
  match gpaParse st.inputGPA with
  | some g =>
    if !(kotlinIsBlank st.inputName) && !(kotlinIsBlank st.inputID) then
      let s : Student G := ⟨st.inputName, st.inputID, g⟩
      { st with
          students := st.students ++ [s],
          outputText := "Added: " ++ showStudent gpaShow s,
          inputName := "", inputID := "", inputGPA := "" }
    else { st with outputText := "Please enter valid Name, ID, and GPA." }
  | none => { st with outputText := "Please enter valid Name, ID, and GPA." }

/-- The Output button handler. -/
def clickOutput {G : Type} (gpaShow : G → String) (st : RegState G) : RegState G :=
  { st with outputText := toNumberedText gpaShow st.students }

end MySecondApp

namespace Testme

/-! ## Sample objects used by concrete witnesses and counterexamples -/

/-- A concrete essay question. -/
def sampleQuestion : Question := ⟨1, "Q1", .essay, none, 10⟩

/-- A concrete one-question exam. -/
def sampleExam : Exam :=
  ⟨"ex1", "s1", "p1", "u1", [sampleQuestion], 10, 2, 1, .medium,
    "2025-01-01", "completed", some ("gpt")⟩

/-- A concrete answers record answering question 1. -/
def sampleAnswers : List (String × String) := [("1", "A1")]

/-- A concrete page state with the sample exam loaded and all questions
answered. -/
def sampleState : ExamPageState := ⟨some sampleExam, false, sampleAnswers, false, false⟩

/-- A concrete page state with the sample exam loaded and nothing
answered. -/
def emptyAnswersState : ExamPageState := ⟨some sampleExam, false, [], false, false⟩

/-! ## JSON round-trip lemmas -/

theorem hexVal_hexDigit {n : Nat} (h : n < 16) : hexVal (hexDigit n) = some n := by
  interval_cases n <;> decide

theorem nextStringToken_escape (c : Char) (rest : List Char) :
    nextStringToken (jsonEscapeChar c ++ rest) = some (some c, rest) := by
  by_cases h1 : c = '"'
  · subst h1; simp [jsonEscapeChar, nextStringToken, decodeEscape]
  by_cases h2 : c = '\\'
  · subst h2; simp [jsonEscapeChar, nextStringToken, decodeEscape]
  by_cases h3 : c = '\x08'
  · subst h3; simp [jsonEscapeChar, nextStringToken, decodeEscape]
  by_cases h4 : c = '\x09'
  · subst h4; simp [jsonEscapeChar, nextStringToken, decodeEscape]
  by_cases h5 : c = '\x0a'
  · subst h5; simp [jsonEscapeChar, nextStringToken, decodeEscape]
  by_cases h6 : c = '\x0c'
  · subst h6; simp [jsonEscapeChar, nextStringToken, decodeEscape]
  by_cases h7 : c = '\x0d'
  · subst h7; simp [jsonEscapeChar, nextStringToken, decodeEscape]
  by_cases h8 : c.toNat < 32
  · have hd : c.toNat / 16 < 16 := by omega
    have hm : c.toNat % 16 < 16 := Nat.mod_lt _ (by omega)
    have hsplit : c.toNat / 16 * 16 + c.toNat % 16 = c.toNat := by omega
    simp [jsonEscapeChar, h1, h2, h3, h4, h5, h6, h7, h8, nextStringToken, decodeEscape,
      takeHex4, hexVal_hexDigit hd, hexVal_hexDigit hm, hsplit, Char.ofNat_toNat,
      show hexVal ('0') = some 0 from by decide]
  · simp only [jsonEscapeChar, h1, h2, h3, h4, h5, h6, h7, h8, if_false,
      List.cons_append, List.nil_append]
    simp [nextStringToken, h1, h2]

theorem parseStringBody_close {l rest : List Char} (h : nextStringToken l = some (none, rest)) :
    parseStringBody l = some ([], rest) := by
  rw [parseStringBody]
  split <;> simp_all

theorem parseStringBody_cons {l rest : List Char} {c : Char}
    (h : nextStringToken l = some (some c, rest)) :
    parseStringBody l = (parseStringBody rest).map (fun p => (c :: p.1, p.2)) := by
  rw [parseStringBody]
  split <;> simp_all

theorem parseStringBody_escapeList (xs : List Char) (rest : List Char) :
    parseStringBody (xs.flatMap jsonEscapeChar ++ '"' :: rest) = some (xs, rest) := by
  induction xs with
  | nil =>
    simp only [List.flatMap_nil, List.nil_append]
    exact parseStringBody_close (by simp [nextStringToken])
  | cons x xs ih =>
    rw [List.flatMap_cons, List.append_assoc,
      parseStringBody_cons (nextStringToken_escape x _), ih]
    rfl

theorem parseMember1_memberChars (kv : String × String) (tail : List Char) :
    parseMember1 (memberChars kv ++ tail) = some (kv, tail) := by
  obtain ⟨k, v⟩ := kv
  simp [parseMember1, memberChars, quoteChars, expectChar, List.append_assoc,
    parseStringBody_escapeList]

theorem parseMembers_membersChars :
    ∀ (m : List (String × String)), m ≠ [] → ∀ fuel, m.length ≤ fuel →
      parseMembers fuel (membersChars m) = some (m, []) := by
  intro m
  induction m with
  | nil => intro h; exact absurd rfl h
  | cons kv rest ih =>
    intro _ fuel hfuel
    obtain ⟨f, rfl⟩ : ∃ f, fuel = f + 1 := ⟨fuel - 1, by simp at hfuel; omega⟩
    cases rest with
    | nil => simp [membersChars, parseMembers, parseMember1_memberChars]
    | cons kv2 rest2 =>
      have hh := ih (by simp) f (by simp at hfuel ⊢; omega)
      simp only [membersChars] at hh ⊢
      simp [parseMembers, parseMember1_memberChars, hh]

theorem membersChars_length_ge (m : List (String × String)) :
    m.length ≤ (membersChars m).length := by
  induction m with
  | nil => simp [membersChars]
  | cons kv rest ih =>
    cases rest with
    | nil => simp [membersChars, memberChars, quoteChars]
    | cons kv2 rest2 =>
      have h2 : 1 ≤ (memberChars kv).length := by simp [memberChars, quoteChars]
      simp only [membersChars, List.length_cons, List.length_append] at ih ⊢
      omega

theorem membersChars_head (kv : String × String) (rest : List (String × String)) :
    ∃ t, membersChars (kv :: rest) = '"' :: t := by
  cases rest <;> simp [membersChars, memberChars, quoteChars]

/-- Round trip: parsing back a stringified flat string record returns it
unchanged. -/
theorem jsonParseRecord_stringify (m : List (String × String)) :
    jsonParseRecord (jsonStringifyRecord m) = some m := by
  cases m with
  | nil => decide
  | cons kv rest =>
    obtain ⟨t, ht⟩ := membersChars_head kv rest
    have hne : membersChars (kv :: rest) ≠ ['\x7d'] := by rw [ht]; simp
    have hlen2 : (String.mk ('\x7b' :: membersChars (kv :: rest))).length
        = (membersChars (kv :: rest)).length + 1 := by
      simp [String.length]
    simp only [jsonParseRecord, jsonStringifyRecord, hne, if_false]
    rw [hlen2, parseMembers_membersChars (kv :: rest) (by simp) _
      (by have := membersChars_length_ge (kv :: rest); omega)]

/-! ## Browser storage lemmas -/

theorem getItem_setItem (st : Store) (k v : String) :
    getItem (setItem st k v) k = some v := by
  simp [getItem, setItem, List.find?]

theorem getItem_removeItem (st : Store) (k : String) :
    getItem (removeItem st k) k = none := by
  induction st with
  | nil => rfl
  | cons e t ih =>
    by_cases h : e.1 == k
    · simpa [removeItem, List.filter, h] using ih
    · simpa [removeItem, getItem, List.filter, List.find?, h] using ih

/-- The draft written by the auto-save effect is restored unchanged by
loadSavedAnswers. -/
theorem loadSavedAnswers_autoSaveEffect (examId : String) (st : ExamPageState)
    (store : Store) (h : st.exam.isSome = true) :
    loadSavedAnswers examId (autoSaveEffect examId st store) = some st.answers := by
  simp [loadSavedAnswers, autoSaveEffect, h, getItem_setItem, jsonParseRecord_stringify]

/-- Claim C9: draft answers round-trip through storage: serializing an
answers record with JSON.stringify and parsing it back with JSON.parse
yields an equal record, so a draft auto-saved by the exam page is
restored unchanged on reload, and a successful submission deletes the
stored draft. -/
theorem C9_draft_round_trip :
    (∀ m : List (String × String), jsonParseRecord (jsonStringifyRecord m) = some m)
    ∧ (∀ (examId : String) (st : ExamPageState) (store : Store),
        st.exam.isSome = true →
        loadSavedAnswers examId (autoSaveEffect examId st store) = some st.answers)
    ∧ (∀ (examId : String) (st : ExamPageState) (store : Store) (ex : Exam),
        st.exam = some ex →
        (ex.questions.all (fun q => isAnswered st.answers q.id)) = true →
        getItem (handleSubmit examId st store).store (answersKey examId) = none) := by
  refine ⟨jsonParseRecord_stringify, loadSavedAnswers_autoSaveEffect, ?_⟩
  intro examId st store ex hex hall
  have hfilter : ex.questions.filter (fun q => !(isAnswered st.answers q.id)) = [] := by
    rw [List.filter_eq_nil_iff]
    intro q hq
    simp [List.all_eq_true.mp hall q hq]
  simp [handleSubmit, hex, hfilter, getItem_removeItem]

/-- Claim C9 witness: the concrete sample draft is stored, restored
unchanged, and deleted by the successful submission. -/
theorem C9_draft_round_trip_witness :
    loadSavedAnswers ("e1") (autoSaveEffect ("e1") sampleState []) = some sampleAnswers
    ∧ getItem (handleSubmit ("e1") sampleState []).store (answersKey ("e1")) = none :=
  ⟨C9_draft_round_trip.2.1 ("e1") sampleState [] (by decide),
   C9_draft_round_trip.2.2 ("e1") sampleState [] sampleExam rfl (by decide)⟩

end Testme

namespace Testme

/-- Claim C1 counterexample: at a concrete fully answered exam
submission, handleSubmit issues no API call at all — in particular it
does not invoke any grading pipeline and produces no scores or feedback —
even though the submission itself succeeds. -/
theorem C1_counterexample_submit_invokes_no_grading :
    (handleSubmit ("e1") sampleState []).calls = []
    ∧ (handleSubmit ("e1") sampleState []).state.submitted = true := by
  decide

/-- Claim C1 (amended): for every exam submission with all questions
answered, the submit operation marks the page submitted, deletes the
stored draft, and raises the completion toast; it invokes no grading —
the code issues no API call and defers submitExam to a future backend
implementation. -/
theorem C1_amended_submit_marks_without_grading
    (examId : String) (st : ExamPageState) (store : Store) (ex : Exam)
    (hex : st.exam = some ex)
    (hall : ∀ q ∈ ex.questions, isAnswered st.answers q.id = true) :
    handleSubmit examId st store =
      ⟨{ st with submitted := true }, removeItem store (answersKey examId),
        [⟨"제출 완료", "답안이 성공적으로 제출되었습니다.", "default"⟩], []⟩ := by
  have hfilter : ex.questions.filter (fun q => !(isAnswered st.answers q.id)) = [] := by
    rw [List.filter_eq_nil_iff]
    intro q hq
    simp [hall q hq]
  simp [handleSubmit, hex, hfilter]

/-- Claim C1 (amended) witness at the concrete sample submission. -/
theorem C1_amended_witness :
    handleSubmit ("e1") sampleState [] =
      ⟨{ sampleState with submitted := true }, removeItem [] (answersKey ("e1")),
        [⟨"제출 완료", "답안이 성공적으로 제출되었습니다.", "default"⟩], []⟩ :=
  C1_amended_submit_marks_without_grading ("e1") sampleState [] sampleExam rfl
    (by decide)

/-- Claim C8: exam submission is gated on completeness: the submitted
state can become true only if every question of the loaded exam has a
(non-empty) recorded answer; with at least one unanswered question the
submit handler leaves the state and the saved draft unchanged and only
raises the destructive notice; and the submit button is disabled whenever
zero questions are answered. -/
theorem C8_submit_gated_on_completeness (examId : String) (st : ExamPageState)
    (store : Store) :
    ((handleSubmit examId st store).state.submitted = true →
      st.submitted = true ∨
        ∃ ex, st.exam = some ex ∧ ∀ q ∈ ex.questions, isAnswered st.answers q.id = true)
    ∧ (∀ ex, st.exam = some ex →
        (∃ q ∈ ex.questions, isAnswered st.answers q.id = false) →
        (handleSubmit examId st store).state = st
        ∧ (handleSubmit examId st store).store = store
        ∧ (handleSubmit examId st store).calls = []
        ∧ ∃ tst, (handleSubmit examId st store).toasts = [tst]
            ∧ tst.variant = "destructive")
    ∧ (answeredCount st = 0 → submitDisabled st = true) := by
  refine ⟨?_, ?_, ?_⟩
  · intro hsub
    by_cases hex : st.exam = none
    · left
      simpa [handleSubmit, hex] using hsub
    · obtain ⟨ex, hex⟩ := Option.ne_none_iff_exists'.mp hex
      by_cases hz : 0 < (ex.questions.filter (fun q => !(isAnswered st.answers q.id))).length
      · left
        simpa [handleSubmit, hex, hz] using hsub
      · right
        refine ⟨ex, hex, ?_⟩
        intro q hq
        have hlen0 : (ex.questions.filter (fun q => !(isAnswered st.answers q.id))).length = 0 := by
          omega
        have hnil := List.length_eq_zero.mp hlen0
        have := List.filter_eq_nil_iff.mp hnil q hq
        simpa using this
  · rintro ex hex ⟨q, hq, hqa⟩
    have hqmem : q ∈ ex.questions.filter (fun q => !(isAnswered st.answers q.id)) := by
      rw [List.mem_filter]
      exact ⟨hq, by simp [hqa]⟩
    have hpos : 0 < (ex.questions.filter (fun q => !(isAnswered st.answers q.id))).length :=
      List.length_pos.mpr (List.ne_nil_of_mem hqmem)
    refine ⟨by simp [handleSubmit, hex, hpos], by simp [handleSubmit, hex, hpos],
      by simp [handleSubmit, hex, hpos], ?_⟩
    refine ⟨⟨"미답변 문제 있음",
      Nat.repr (ex.questions.filter (fun q => !(isAnswered st.answers q.id))).length
        ++ "개의 문제가 아직 답변되지 않았습니다.", "destructive"⟩, ?_, rfl⟩
    simp [handleSubmit, hex, hpos]
  · intro h
    have hnil : st.answers = [] := List.length_eq_zero.mp h
    simp [submitDisabled, answeredCount, hnil]

/-- Claim C8 witness: with the sample exam loaded and nothing answered,
the handler leaves the state unchanged and the button is disabled. -/
theorem C8_submit_gated_witness :
    (handleSubmit ("e1") emptyAnswersState []).state = emptyAnswersState
    ∧ submitDisabled emptyAnswersState = true :=
  ⟨((C8_submit_gated_on_completeness ("e1") emptyAnswersState []).2.1 sampleExam rfl
      ⟨sampleQuestion, by decide, by decide⟩).1,
   (C8_submit_gated_on_completeness ("e1") emptyAnswersState []).2.2 (by decide)⟩

/-- Claim C5 counterexample: the exam page does write data to local
persistent storage for a later operation to read back: at a concrete
state the auto-save effect stores the serialized answers draft in
localStorage, and loadSavedAnswers reads the same record back from the
store instead of refetching it. -/
theorem C5_counterexample_draft_persisted :
    autoSaveEffect ("e1") sampleState [] ≠ ([] : Store)
    ∧ getItem (autoSaveEffect ("e1") sampleState []) (answersKey ("e1"))
        = some (jsonStringifyRecord sampleAnswers)
    ∧ loadSavedAnswers ("e1") (autoSaveEffect ("e1") sampleState []) = some sampleAnswers :=
  ⟨by decide, by decide,
   loadSavedAnswers_autoSaveEffect ("e1") sampleState [] (by decide)⟩

/-- Claim C5 (amended): the web application does maintain a client-side
persistent store of its own: whenever an exam is loaded, the exam page
auto-saves its answers record to localStorage under exam_<examId>_answers,
and a later page load with that key stored reads the draft back from
localStorage rather than from the backend. -/
theorem C5_amended_exam_page_persists_draft :
    (∀ (examId : String) (st : ExamPageState) (store : Store),
      st.exam.isSome = true →
      getItem (autoSaveEffect examId st store) (answersKey examId)
        = some (jsonStringifyRecord st.answers))
    ∧ (∀ (examId : String) (store : Store) (m : List (String × String)),
      getItem store (answersKey examId) = some (jsonStringifyRecord m) →
      loadSavedAnswers examId store = some m) := by
  constructor
  · intro examId st store h
    simp [autoSaveEffect, h, getItem_setItem]
  · intro examId store m h
    simp [loadSavedAnswers, h, jsonParseRecord_stringify]

/-- Claim C5 (amended) witness at the concrete sample state. -/
theorem C5_amended_witness :
    getItem (autoSaveEffect ("e1") sampleState []) (answersKey ("e1"))
      = some (jsonStringifyRecord sampleAnswers) :=
  C5_amended_exam_page_persists_draft.1 ("e1") sampleState [] (by decide)

end Testme

namespace Testme

/-- Claim C2 counterexample: a run in development mode with the
sessionStorage dev-login flag set and no Firebase user at all is treated
as authenticated — the mock user is set, the fixed non-Firebase token
dev-token-123 is handed out, the development ProtectedRoute renders its
children even for an unauthenticated snapshot, and devLogin grants this
state without consulting Firebase. -/
theorem C2_counterexample_dev_login_bypasses_firebase :
    (useAuthState true (some ("true")) none).userUid = some mockUserUid
    ∧ (useAuthState true (some ("true")) none).idToken = some devToken
    ∧ protectedRoute true ⟨none, none, false⟩ = RouteOutput.children
    ∧ (devLogin true []).1 = [("dev-logged-in", "true")] := by
  decide

/-- Claim C2 (amended): in production mode authentication is established
only by Firebase: a user is treated as authenticated exactly when a
Firebase user exists, the ID token is exactly the Firebase-issued one,
ProtectedRoute renders the protected page exactly when the Firebase user
exists, and the Authorization header is attached exactly when Firebase
has a current user with a token; in development mode, however, the
sessionStorage dev-login flag alone decides authentication, bypassing
Firebase. -/
theorem C2_amended_production_auth_is_firebase_only
    (devFlag : Option String) (firebaseUser : Option FirebaseUser) :
    ((useAuthState false devFlag firebaseUser).userUid.isSome = firebaseUser.isSome)
    ∧ ((useAuthState false devFlag firebaseUser).idToken
        = firebaseUser.bind (fun u => u.idToken))
    ∧ (protectedRoute false (useAuthState false devFlag firebaseUser)
        = (if firebaseUser.isSome then RouteOutput.children else RouteOutput.redirectLogin))
    ∧ (requestAuthHeader firebaseUser
        = (firebaseUser.bind (fun u => u.idToken)).map (fun t => "Bearer " ++ t))
    ∧ ((useAuthState true devFlag firebaseUser).userUid.isSome
        = (devFlag == some ("true"))) := by
  refine ⟨?_, ?_, ?_, ?_, ?_⟩ <;>
    cases firebaseUser <;>
      simp [useAuthState, protectedRoute, requestAuthHeader] <;>
        by_cases hf : devFlag = some ("true") <;> simp [hf]

/-- Claim C3: AI provider selection is two-valued: the generation form
starts with the default provider gpt, and every form state reachable
through the page controls carries provider gpt or gemini, so no
generation request can carry any other provider value. -/
theorem C3_ai_provider_two_valued (pdfId : String) :
    (initialForm pdfId).ai_provider = "gpt"
    ∧ ∀ f : ExamGenerationForm, ReachableForm pdfId f →
        f.ai_provider = "gpt" ∨ f.ai_provider = "gemini" := by
  refine ⟨rfl, ?_⟩
  intro f hf
  induction hf with
  | init => exact Or.inl rfl
  | setNum n _ _ _ ih => exact ih
  | selectDifficulty v _ _ ih => exact ih
  | selectProvider v _ hv _ =>
    simp only [aiProviderItems, List.mem_cons, List.mem_singleton] at hv
    rcases hv with h | h | h
    · exact Or.inl h
    · exact Or.inr h
    · cases h

/-- Claim C3 witness: the initial form state is reachable and carries one
of the two provider values. -/
theorem C3_ai_provider_witness :
    (initialForm ("p1")).ai_provider = "gpt"
    ∧ ((initialForm ("p1")).ai_provider = "gpt"
        ∨ (initialForm ("p1")).ai_provider = "gemini") :=
  ⟨(C3_ai_provider_two_valued ("p1")).1,
   (C3_ai_provider_two_valued ("p1")).2 (initialForm ("p1")) ReachableForm.init⟩

/-- Claim C4 counterexample: the error path does more than forward the
upstream message unchanged: a 401 response in production mode redirects
the browser to /login, and a response whose body carries neither message
nor error is delivered as the fallback text, which no upstream server
produced. -/
theorem C4_counterexample_fallback_and_redirect :
    (handleResponseError false (.response ⟨401, some ("Unauthorized"), none⟩)).redirectedToLogin
      = true
    ∧ (handleResponseError false (.response ⟨500, none, none⟩)).rejectedMessage
      = "An error occurred" := by
  decide

/-- Claim C4 (amended): for a failed request the interceptor delivers the
upstream message when the body carries a non-empty one, falls back to the
error field and then to the fixed text An error occurred, substitutes No
response from server when no response arrived, forwards any other error
unchanged, and as a side effect redirects the browser to /login exactly
on a 401 outside development mode. -/
theorem C4_amended_error_forwarding (isDev : Bool) (r : ErrorResponse) (m e : String)
    (msg : String) :
    (r.message = some m → ¬(m = "") →
      (handleResponseError isDev (.response r)).rejectedMessage = m)
    ∧ ((r.message = none ∨ r.message = some "") → r.error = some e → ¬(e = "") →
        (handleResponseError isDev (.response r)).rejectedMessage = e)
    ∧ ((r.message = none ∨ r.message = some "") →
        (r.error = none ∨ r.error = some "") →
        (handleResponseError isDev (.response r)).rejectedMessage = "An error occurred")
    ∧ ((handleResponseError isDev (.response r)).redirectedToLogin
        = ((r.status == 401) && !isDev))
    ∧ ((handleResponseError isDev .request).rejectedMessage = "No response from server")
    ∧ ((handleResponseError isDev (.other msg)).rejectedMessage = msg)
    ∧ ((handleResponseError isDev .request).redirectedToLogin = false)
    ∧ ((handleResponseError isDev (.other msg)).redirectedToLogin = false) := by
  refine ⟨?_, ?_, ?_, rfl, rfl, rfl, rfl, rfl⟩
  · intro hm hne
    simp [handleResponseError, responseErrorMessage, jsOr, hm, hne]
  · rintro (hm | hm) he hne <;>
      simp [handleResponseError, responseErrorMessage, jsOr, hm, he, hne]
  · rintro (hm | hm) (he | he) <;>
      simp [handleResponseError, responseErrorMessage, jsOr, hm, he]

/-- Claim C4 (amended) witness at concrete error inputs, one per
delivery branch: upstream message forwarded, error field substituted when
the message is absent, and the fixed fallback when both are absent. -/
theorem C4_amended_witness :
    (handleResponseError false
        (.response ⟨500, some ("boom"), none⟩)).rejectedMessage = "boom"
    ∧ (handleResponseError false
        (.response ⟨500, none, some ("oops")⟩)).rejectedMessage = "oops"
    ∧ (handleResponseError true
        (.response ⟨404, none, none⟩)).rejectedMessage = "An error occurred" :=
  ⟨(C4_amended_error_forwarding false ⟨500, some ("boom"), none⟩ ("boom") ("e") ("x")).1
      rfl (by decide),
   (C4_amended_error_forwarding false ⟨500, none, some ("oops")⟩ ("m") ("oops") ("x")).2.1
      (Or.inl rfl) rfl (by decide),
   (C4_amended_error_forwarding true ⟨404, none, none⟩ ("m") ("e") ("x")).2.2.1
      (Or.inl rfl) (Or.inl rfl)⟩

/-- Claim C6: only lecture PDFs within the size limit are uploaded: for
every selected file the upload request is issued if and only if the MIME
type is application/pdf and the size is at most 16*1024*1024 bytes; any
other file only produces an error toast, and with no file selected
nothing happens. -/
theorem C6_upload_iff_pdf_within_limit (f : FileInfo) :
    (handleFileUpload (some f) = .upload ↔
      f.ftype = "application/pdf" ∧ f.size ≤ 16 * 1024 * 1024)
    ∧ (¬(f.ftype = "application/pdf" ∧ f.size ≤ 16 * 1024 * 1024) →
        ∃ t d, handleFileUpload (some f) = .showError t d)
    ∧ handleFileUpload none = .noFile := by
  refine ⟨?_, ?_, rfl⟩
  · constructor
    · intro h
      by_cases h1 : f.ftype = "application/pdf"
      · by_cases h2 : f.size ≤ 16 * 1024 * 1024
        · exact ⟨h1, h2⟩
        · simp [handleFileUpload, h1, Nat.lt_of_not_le h2] at h
      · simp [handleFileUpload, h1] at h
    · rintro ⟨h1, h2⟩
      simp [handleFileUpload, h1, Nat.not_lt_of_le h2]
  · intro h
    by_cases h1 : f.ftype = "application/pdf"
    · have h2 : ¬f.size ≤ 16 * 1024 * 1024 := fun hc => h ⟨h1, hc⟩
      exact ⟨"파일 크기 초과", "파일 크기는 16MB를 초과할 수 없습니다.",
        by simp [handleFileUpload, h1, Nat.lt_of_not_le h2]⟩
    · exact ⟨"파일 형식 오류", "PDF 파일만 업로드 가능합니다.",
        by simp [handleFileUpload, h1]⟩

/-- Claim C6 witness: a small PDF uploads; a PNG only raises an error. -/
theorem C6_upload_witness :
    handleFileUpload (some ⟨"application/pdf", 100⟩) = .upload
    ∧ ∃ t d, handleFileUpload (some ⟨"image/png", 100⟩) = .showError t d :=
  ⟨(C6_upload_iff_pdf_within_limit ⟨"application/pdf", 100⟩).1.mpr
      ⟨rfl, by norm_num⟩,
   (C6_upload_iff_pdf_within_limit ⟨"image/png", 100⟩).2.1 (by decide)⟩

end Testme

namespace LabW7

theorem battery_prefix_ne (x : String) :
    ("Battery: " ++ x) ≠ ("No battery data received") := by
  intro h
  have hd := congrArg String.data h
  rw [String.data_append] at hd
  have hh := congrArg List.head? hd
  rw [show ("Battery: ").data = 'B' :: ("attery: ").data from rfl] at hh
  simp at hh

/-- Claim C7: the battery app displays a received level faithfully: the
second screen renders "Battery: N%" when the received extra N is not -1,
renders "No battery data received" exactly when the received value is -1
(the default when no extra was sent), and the value the main screen sends
is the BatteryManager capacity it read. -/
theorem C7_battery_display_faithful (capacity : Int) :
    (secondActivityText (sendBatteryIntent capacity)
      = (if capacity ≠ -1 then "Battery: " ++ toString capacity ++ "%"
         else "No battery data received"))
    ∧ secondActivityText [] = "No battery data received"
    ∧ (∀ intent : IntentExtras,
        (secondActivityText intent = "No battery data received"
          ↔ getIntExtra intent ("BATTERY_LEVEL") (-1) = -1)) := by
  refine ⟨?_, rfl, ?_⟩
  · have hget : getIntExtra (sendBatteryIntent capacity) ("BATTERY_LEVEL") (-1) = capacity := by
      simp [getIntExtra, sendBatteryIntent, putExtra, List.find?]
    simp only [secondActivityText, hget, batteryDisplayText]
  · intro intent
    constructor
    · intro h
      by_cases hv : getIntExtra intent ("BATTERY_LEVEL") (-1) = -1
      · exact hv
      · exfalso
        have hx : secondActivityText intent
            = "Battery: " ++ toString (getIntExtra intent ("BATTERY_LEVEL") (-1)) ++ "%" := by
          simp [secondActivityText, batteryDisplayText, hv]
        rw [hx, String.append_assoc] at h
        exact battery_prefix_ne _ h
    · intro hv
      simp [secondActivityText, batteryDisplayText, hv]

/-- Claim C7 witness at the concrete capacity 55. -/
theorem C7_battery_witness :
    secondActivityText (sendBatteryIntent 55)
      = (if (55 : Int) ≠ -1 then "Battery: " ++ toString (55 : Int) ++ "%"
         else "No battery data received") :=
  (C7_battery_display_faithful 55).1

end LabW7

namespace MySecondApp

/-- A concrete registration state with valid inputs, used by the claim
witness. -/
def sampleRegState : RegState Nat := ⟨"Kim", "123", "4", "", []⟩

theorem go_data (sep : String) :
    ∀ (l : List String) (acc : String),
      ∃ t, (String.intercalate.go acc sep l).data = acc.data ++ t := by
  intro l
  induction l with
  | nil => intro acc; exact ⟨[], by simp [String.intercalate.go]⟩
  | cons b bs ih =>
    intro acc
    obtain ⟨t', ht'⟩ := ih (acc ++ sep ++ b)
    exact ⟨sep.data ++ b.data ++ t', by
      simp [String.intercalate.go, ht', String.data_append, List.append_assoc]⟩

theorem intercalate_cons_data (sep a : String) (l : List String) :
    ∃ t, (String.intercalate sep (a :: l)).data = a.data ++ t := by
  simpa [String.intercalate] using go_data sep l a

theorem numberedFrom_eq_mapIdx {G : Type} (gpaShow : G → String) :
    ∀ (l : List (Student G)) (k : Nat),
      numberedFrom gpaShow k l
        = l.mapIdx (fun i s => Nat.repr (i + k) ++ ". " ++ showStudent gpaShow s) := by
  intro l
  induction l with
  | nil => intro k; simp [numberedFrom]
  | cons s rest ih =>
    intro k
    rw [numberedFrom, List.mapIdx_cons, ih (k + 1)]
    have hfun : (fun i t => Nat.repr (i + (k + 1)) ++ ". " ++ showStudent gpaShow t)
        = (fun i t => Nat.repr (i + 1 + k) ++ ". " ++ showStudent gpaShow t) := by
      funext i t
      rw [Nat.add_assoc, Nat.add_comm 1 k]
    rw [hfun]
    simp

theorem toNumberedText_cons_ne {G : Type} (gpaShow : G → String)
    (s : Student G) (rest : List (Student G)) :
    toNumberedText gpaShow (s :: rest) ≠ ("No students.") := by
  intro h
  have hform : toNumberedText gpaShow (s :: rest)
      = String.intercalate ("\n")
          ((Nat.repr (0 + 1) ++ ". " ++ showStudent gpaShow s) ::
            (rest.mapIdx (fun i t => Nat.repr (i + 1 + 1) ++ ". " ++ showStudent gpaShow t))) := by
    simp [toNumberedText, List.mapIdx_cons]
  rw [hform] at h
  obtain ⟨t, ht⟩ := intercalate_cons_data ("\n")
    (Nat.repr (0 + 1) ++ ". " ++ showStudent gpaShow s)
    (rest.mapIdx (fun i t => Nat.repr (i + 1 + 1) ++ ". " ++ showStudent gpaShow t))
  have hd := congrArg String.data h
  rw [ht] at hd
  have h1 : (Nat.repr (0 + 1) ++ ". " ++ showStudent gpaShow s).data
      = '1' :: ((". " ++ showStudent gpaShow s).data) := by
    rw [show Nat.repr (0 + 1) ++ ". " ++ showStudent gpaShow s
        = "1" ++ (". " ++ showStudent gpaShow s) from by
      rw [String.append_assoc, show Nat.repr (0 + 1) = "1" from rfl]]
    rw [String.data_append]
    rfl
  rw [h1] at hd
  have hh := congrArg List.head? hd
  simp at hh

/-- Claim C10: the student-registration app keeps an append-only
validated list: Input appends Student(name, id, gpa) and clears the three
fields exactly when name and ID are non-blank and the GPA text parses
(otherwise the list and fields are unchanged and an error message is
shown), and Output renders "No students." exactly when the list is empty
and otherwise the students numbered consecutively from 1 in insertion
order, one entry per joined line. -/
theorem C10_registration_append_only_validated {G : Type}
    (gpaParse : String → Option G) (gpaShow : G → String) (st : RegState G) :
    (∀ g, gpaParse st.inputGPA = some g →
      kotlinIsBlank st.inputName = false → kotlinIsBlank st.inputID = false →
      clickInput gpaParse gpaShow st =
        { st with
            students := st.students ++ [⟨st.inputName, st.inputID, g⟩],
            outputText := "Added: " ++ showStudent gpaShow ⟨st.inputName, st.inputID, g⟩,
            inputName := "", inputID := "", inputGPA := "" })
    ∧ ((gpaParse st.inputGPA = none ∨ kotlinIsBlank st.inputName = true
          ∨ kotlinIsBlank st.inputID = true) →
        (clickInput gpaParse gpaShow st).students = st.students
        ∧ (clickInput gpaParse gpaShow st).inputName = st.inputName
        ∧ (clickInput gpaParse gpaShow st).inputID = st.inputID
        ∧ (clickInput gpaParse gpaShow st).inputGPA = st.inputGPA
        ∧ (clickInput gpaParse gpaShow st).outputText
            = "Please enter valid Name, ID, and GPA.")
    ∧ ((clickOutput gpaShow st).outputText = toNumberedText gpaShow st.students)
    ∧ (toNumberedText gpaShow st.students = "No students." ↔ st.students = [])
    ∧ (st.students ≠ [] →
        toNumberedText gpaShow st.students
          = String.intercalate ("\n") (numberedFrom gpaShow 1 st.students)) := by
  refine ⟨?_, ?_, rfl, ?_, ?_⟩
  · intro g hg h1 h2
    simp [clickInput, hg, h1, h2]
  · intro h
    rcases h with h | h | h
    · simp [clickInput, h]
    · cases hp : gpaParse st.inputGPA <;> simp [clickInput, hp, h]
    · cases hp : gpaParse st.inputGPA <;> simp [clickInput, hp, h]
  · constructor
    · intro h
      rcases hl : st.students with _ | ⟨s, rest⟩
      · rfl
      · rw [hl] at h
        exact absurd h (toNumberedText_cons_ne gpaShow s rest)
    · intro h
      rw [h]
      rfl
  · intro h
    have hne : st.students.isEmpty = false := by
      cases hs : st.students
      · exact absurd hs h
      · rfl
    rw [toNumberedText, hne, numberedFrom_eq_mapIdx gpaShow st.students 1]
    simp

/-- Claim C10 witness at a concrete valid input and the empty list. -/
theorem C10_registration_witness :
    clickInput (fun s => if s = "4" then some 4 else none) Nat.repr sampleRegState =
      { sampleRegState with
          students := sampleRegState.students ++ [⟨"Kim", "123", 4⟩],
          outputText := "Added: " ++ showStudent Nat.repr ⟨"Kim", "123", 4⟩,
          inputName := "", inputID := "", inputGPA := "" }
    ∧ toNumberedText Nat.repr ([] : List (Student Nat)) = "No students." :=
  ⟨(C10_registration_append_only_validated (fun s => if s = "4" then some 4 else none)
      Nat.repr sampleRegState).1 4 (by decide) (by decide) (by decide),
   (C10_registration_append_only_validated (fun s => if s = "4" then some 4 else none)
      Nat.repr ⟨"", "", "", "", []⟩).2.2.2.1.mpr rfl⟩

end MySecondApp
